import Mathlib

/-!
Verification model of the plapper repository, files src/plapper/jsonify.py
and src/plapper/littledb.py, as a shallow embedding in Lean 4.

The model covers the JSON-like structured-text codec (module jsonify), the
adapter registry and the Collection/Store layer of littledb.  The wire
format of the codec is modelled at the level of the parsed JSON tree: the
stdlib json module (external to the repository) serializes a tree to UTF-8
text and parses it back losslessly, so text serialization is abstracted as
the identity on trees.
-/

/- A JSON document tree, as produced by the stdlib json parser.  The
repository never stores floats in the claims under examination, so number
nodes are integers. -/
mutual

inductive Json where
  | jNull : Json
  | jBool (b : Bool) : Json
  | jInt (n : Int) : Json
  | jStr (s : String) : Json
  | jArr (xs : JsonList) : Json
  | jObj (kvs : JsonPairs) : Json

inductive JsonList where
  | nil : JsonList
  | cons (x : Json) (xs : JsonList) : JsonList

inductive JsonPairs where
  | nil : JsonPairs
  | cons (k : String) (v : Json) (rest : JsonPairs) : JsonPairs

end

/-- A Python byte-string, classified by what its content is.  jsonText j is
the UTF-8 encoding of the JSON serialization of the tree j; otherBytes bs
is any byte sequence that is not valid JSON text (the two classes are
disjoint because the stdlib json serializer only emits valid JSON). -/
inductive Blob where
  | jsonText (j : Json) : Blob
  | otherBytes (bs : List Nat) : Blob

/- A Python value of the shapes handled by the repository: scalars,
byte-strings, temporal values, lists, dicts (string keys, as the codec
requires), and class instances produced by the structured-text decoder.
Floats are outside the modelled domain. -/
mutual

inductive PyVal where
  | vnone : PyVal
  | vbool (b : Bool) : PyVal
  | vint (n : Int) : PyVal
  | vstr (s : String) : PyVal
  | vbytes (b : Blob) : PyVal
  | vdate (y m d : Int) : PyVal
  | vdatetime (y mo d h mi s us : Int) : PyVal
  | vlist (xs : PyList) : PyVal
  | vdict (kvs : PyPairs) : PyVal
  | vinst (cls : String) (attrs : PyPairs) : PyVal

inductive PyList where
  | nil : PyList
  | cons (x : PyVal) (xs : PyList) : PyList

inductive PyPairs where
  | nil : PyPairs
  | cons (k : String) (v : PyVal) (rest : PyPairs) : PyPairs

end

/-- Lookup in an association list with decidable keys (first match). -/
def lookupKV {κ α : Type} [DecidableEq κ] : List (κ × α) → κ → Option α
  | [], _ => none
  | (k, v) :: rest, q => if k = q then some v else lookupKV rest q

/-- Lookup of a key in decoded Python dict pairs (first match). -/
def pyLookup : PyPairs → String → Option PyVal
  | .nil, _ => none
  | .cons k v rest, q => if k = q then some v else pyLookup rest q

/-- Removal of every entry with the given key from dict pairs. -/
def pyErase : PyPairs → String → PyPairs
  | .nil, _ => .nil
  | .cons k v rest, q => if k = q then pyErase rest q else .cons k v (pyErase rest q)

/-- True when the key occurs in the pairs. -/
def pyHasKey : PyPairs → String → Bool
  | .nil, _ => false
  | .cons k _ rest, q => k == q || pyHasKey rest q

/-- The value of the last occurrence of the key, with a default. -/
def pyLastVal : PyPairs → String → PyVal → PyVal
  | .nil, _, dflt => dflt
  | .cons k v rest, q, dflt => if k = q then pyLastVal rest q v else pyLastVal rest q dflt

/-- Distinctness of the keys of dict pairs. -/
def pyNodupKeys : PyPairs → Bool
  | .nil => true
  | .cons k _ rest => !pyHasKey rest k && pyNodupKeys rest

def pyAppend : PyPairs → PyPairs → PyPairs
  | .nil, qs => qs
  | .cons k v rest, qs => .cons k v (pyAppend rest qs)

/-- Errors raised by the modelled Python code. -/
inductive PyErr where
  | typeError : PyErr
  | valueError : PyErr
  | attributeError : PyErr
  | nameError (missing : String) : PyErr
  | unboundLocalError : PyErr
  | keyError (key : String) : PyErr
  | interfaceError : PyErr
  | operationalError : PyErr

/-- An entry of a decode namespace: what a name in the namespace mapping is
bound to.  nsClass models a plain Python class; its lenientNew flag is true
when the class overrides init but not new, in which case object new ignores
extra constructor arguments instead of raising TypeError. -/
inductive NsEntry where
  | nsDateCls : NsEntry
  | nsDatetimeCls : NsEntry
  | nsClass (name : String) (lenientNew : Bool) : NsEntry
  | nsOther : NsEntry

/-- A decode namespace is a dict from names to objects. -/
abbrev Namespace := List (String × NsEntry)

/-- The global namespace of the jsonify module after import: its top-level
bindings, in definition order (source jsonify.py).  Jsonable overrides
neither new nor init; JsonifyEncoder and JsonifyDecoder inherit or define
an init override, so object new is lenient about extra arguments for them.
Functions, modules and the two unused format-string constants are
non-class entries. -/
def moduleGlobals : Namespace :=
  [("__name__", .nsOther), ("__doc__", .nsOther), ("__package__", .nsOther),
   ("__loader__", .nsOther), ("__spec__", .nsOther), ("__builtins__", .nsOther),
   ("__file__", .nsOther), ("__all__", .nsOther),
   ("datetime", .nsOther), ("inspect", .nsOther), ("json", .nsOther),
   ("DATETIME_FMT", .nsOther), ("DATE_FMT", .nsOther),
   ("Jsonable", .nsClass "Jsonable" false),
   ("JsonifyEncoder", .nsClass "JsonifyEncoder" true),
   ("JsonifyDecoder", .nsClass "JsonifyDecoder" true),
   ("dumps", .nsOther), ("loads", .nsOther)]

/-- JsonifyDecoder init: namespace.setdefault for the two built-in temporal
markers (source jsonify.py lines 106-108). -/
def nsSetdefaults (ns : Namespace) : Namespace :=
  let ns1 := if (lookupKV ns "_date").isSome then ns else ns ++ [("_date", .nsDateCls)]
  if (lookupKV ns1 "_datetime").isSome then ns1 else ns1 ++ [("_datetime", .nsDatetimeCls)]

/-- The namespace used by loads when the namespace parameter is omitted:
the jsonify module globals (source line 180) with the two temporal
defaults added by the decoder. -/
def defaultNamespace : Namespace := nsSetdefaults moduleGlobals

/-- The attribute names of a Python dict instance, as found by getattr on
the namespace mapping before the .get fallback (source lines 131-134).
The attribute named double-underscore class is treated separately in
resolveMarker because it resolves to the dict type itself. -/
def dictAttrNames : List String :=
  ["clear", "copy", "fromkeys", "get", "items", "keys", "pop", "popitem",
   "setdefault", "update", "values",
   "__contains__", "__delattr__", "__delitem__", "__dir__", "__doc__",
   "__eq__", "__format__", "__ge__", "__getattribute__", "__getitem__",
   "__gt__", "__hash__", "__init__", "__init_subclass__", "__iter__",
   "__le__", "__len__", "__lt__", "__ne__", "__new__", "__reduce__",
   "__reduce_ex__", "__repr__", "__reversed__", "__setattr__",
   "__setitem__", "__sizeof__", "__str__", "__subclasshook__"]

/-- Python truth value of a decoded value (used by the `if clsname:` test
in decode_object).  Byte strings and instances are modelled as truthy; the
empty-bytes corner cannot arise from parsed JSON. -/
def pyTruthy : PyVal → Bool
  | .vnone => false
  | .vbool b => b
  | .vint n => n != 0
  | .vstr s => s != ""
  | .vbytes _ => true
  | .vdate _ _ _ => true
  | .vdatetime _ _ _ _ _ _ _ => true
  | .vlist .nil => false
  | .vlist (.cons _ _) => true
  | .vdict .nil => false
  | .vdict (.cons _ _ _) => true
  | .vinst _ _ => true

/-- What a truthy class-marker value resolves to. -/
inductive Resolved where
  | rDate : Resolved
  | rDatetime : Resolved
  | rClass (name : String) (lenientNew : Bool) : Resolved
  | rDictType : Resolved
  | rDictAttr : Resolved
  | rOther : Resolved

/-- Marker resolution in decode_object (source lines 130-138): first
getattr on the namespace mapping, which on a dict succeeds exactly for the
dict attributes (the marker value spelled like the class dunder resolves
to the dict type itself, other attribute names to bound methods or the
docstring); on AttributeError the .get fallback consults the mapping
entries; getattr with a non-string name raises TypeError. -/
def resolveMarker (ns : Namespace) (cv : PyVal) : Except PyErr Resolved :=
  match cv with
  | .vstr s =>
    if s = "__class__" then .ok .rDictType
    else if dictAttrNames.contains s then .ok .rDictAttr
    else
      match lookupKV ns s with
      | some .nsDateCls => .ok .rDate
      | some .nsDatetimeCls => .ok .rDatetime
      | some (.nsClass c lenient) => .ok (.rClass c lenient)
      | some .nsOther => .ok .rOther
      | none => .error (.nameError s)
  | _ => .error .typeError

def isLeapYear (y : Int) : Bool :=
  (y % 4 == 0 && y % 100 != 0) || y % 400 == 0

def daysInMonth (y m : Int) : Int :=
  if m == 1 || m == 3 || m == 5 || m == 7 || m == 8 || m == 10 || m == 12 then 31
  else if m == 4 || m == 6 || m == 9 || m == 11 then 30
  else if isLeapYear y then 29 else 28

/-- Range validation performed by the datetime.date constructor. -/
def validDate (y m d : Int) : Bool :=
  decide (1 ≤ y) && decide (y ≤ 9999) && decide (1 ≤ m) && decide (m ≤ 12) &&
    decide (1 ≤ d) && decide (d ≤ daysInMonth y m)

/-- Range validation performed by the datetime.datetime constructor for
the time components (microsecond precision). -/
def validTime (h mi s us : Int) : Bool :=
  decide (0 ≤ h) && decide (h ≤ 23) && decide (0 ≤ mi) && decide (mi ≤ 59) &&
    decide (0 ≤ s) && decide (s ≤ 59) && decide (0 ≤ us) && decide (us ≤ 999999)

/-- Reads a list of Python ints from positional arguments, if they all are
ints. -/
def intArgs : PyList → Option (List Int)
  | .nil => some []
  | .cons (.vint n) rest => (intArgs rest).map (fun l => n :: l)
  | .cons _ _ => none

def charsToPyList : List Char → PyList
  | [] => .nil
  | c :: cs => .cons (.vstr (String.singleton c)) (charsToPyList cs)

def pyKeysAsVals : PyPairs → PyList
  | .nil => .nil
  | .cons k _ rest => .cons (.vstr k) (pyKeysAsVals rest)

/-- Python iterable unpacking of the newargs value into positional
arguments (the star in cls new, source line 140): a list yields its
elements, a str its characters, a dict its keys; other values in play are
not iterable and raise TypeError.  A bytes value cannot occur here because
newargs comes from parsed JSON text. -/
def starArgs : PyVal → Except PyErr PyList
  | .vlist xs => .ok xs
  | .vstr s => .ok (charsToPyList s.toList)
  | .vdict kvs => .ok (pyKeysAsVals kvs)
  | _ => .error .typeError

def mkDatetime (y mo d h mi s us : Int) : Except PyErr PyVal :=
  if validDate y mo d && validTime h mi s us then .ok (.vdatetime y mo d h mi s us)
  else .error .valueError

/-- cls.__new__(cls, *args) for the resolved marker (source line 140).
The date and datetime constructors take 3 and 3 to 7 integer components
(missing time components default to zero) and validate ranges; a plain
class yields a bare instance, rejecting extra arguments unless its init
override makes object new lenient; the dict type ignores arguments and
yields an empty dict; bound methods, functions, strings and modules are
not types, so object new raises TypeError for them. -/
def applyNew : Resolved → PyList → Except PyErr PyVal
  | .rDate, args =>
    match intArgs args with
    | some [y, m, d] =>
        if validDate y m d then .ok (.vdate y m d) else .error .valueError
    | _ => .error .typeError
  | .rDatetime, args =>
    match intArgs args with
    | some [y, mo, d] => mkDatetime y mo d 0 0 0 0
    | some [y, mo, d, h] => mkDatetime y mo d h 0 0 0
    | some [y, mo, d, h, mi] => mkDatetime y mo d h mi 0 0
    | some [y, mo, d, h, mi, s] => mkDatetime y mo d h mi s 0
    | some [y, mo, d, h, mi, s, us] => mkDatetime y mo d h mi s us
    | _ => .error .typeError
  | .rClass c _, .nil => .ok (.vinst c .nil)
  | .rClass c lenient, .cons _ _ => if lenient then .ok (.vinst c .nil) else .error .typeError
  | .rDictType, _ => .ok (.vdict .nil)
  | .rDictAttr, _ => .error .typeError
  | .rOther, _ => .error .typeError

def ppAllDunder : PyPairs → Bool
  | .nil => true
  | .cons k _ rest => k.startsWith "__" && ppAllDunder rest

def ppStripDunder : PyPairs → PyPairs
  | .nil => .nil
  | .cons k v rest =>
    if k.startsWith "__" then ppStripDunder rest else .cons k v (ppStripDunder rest)

/-- State restoration after instance creation (source lines 142-147): none
of the constructible instances define a setstate hook (the datetime
classes only have a name-mangled private one and the module classes none),
so the AttributeError branch assigns each remaining non-dunder key as an
attribute.  Attribute assignment succeeds on plain class instances and
raises AttributeError on immutable built-ins (dates, datetimes) and on
dict instances. -/
def applyState (inst : PyVal) (rest : PyPairs) : Except PyErr PyVal :=
  match inst with
  | .vinst c attrs => .ok (.vinst c (pyAppend attrs (ppStripDunder rest)))
  | .vdate y m d =>
      if ppAllDunder rest then .ok (.vdate y m d) else .error .attributeError
  | .vdatetime y mo d h mi s us =>
      if ppAllDunder rest then .ok (.vdatetime y mo d h mi s us) else .error .attributeError
  | .vdict kvs =>
      if ppAllDunder rest then .ok (.vdict kvs) else .error .attributeError
  | _ => .error .typeError

/-- dict(pairs) in Python: duplicate keys keep the position of the first
occurrence and the value of the last. -/
def pyDictAux (seen : List String) : PyPairs → PyPairs
  | .nil => .nil
  | .cons k v rest =>
    if seen.contains k then pyDictAux seen rest
    else .cons k (pyLastVal rest k v) (pyDictAux (k :: seen) rest)

def pyDict (ps : PyPairs) : PyPairs := pyDictAux [] ps

/-- The dict branch of decode_object after the per-value walk (source
lines 127-151): build the dict, pop the class marker (the key is removed
in every case), and if the marker is truthy resolve it, build the
instance from the popped newargs, and restore state from the remaining
keys; a falsy marker, or no marker, returns the plain dict. -/
def handleDict (ns : Namespace) (pairs : PyPairs) : Except PyErr PyVal :=
  let result := pyDict pairs
  match pyLookup result "__class__" with
  | none => .ok (.vdict result)
  | some cv =>
    let rest := pyErase result "__class__"
    if pyTruthy cv then
      match resolveMarker ns cv with
      | .error e => .error e
      | .ok r =>
        let argl : Except PyErr PyList :=
          match pyLookup rest "__newargs__" with
          | none => .ok .nil
          | some nv => starArgs nv
        match argl with
        | .error e => .error e
        | .ok args =>
          match applyNew r args with
          | .error e => .error e
          | .ok inst => applyState inst (pyErase rest "__newargs__")
    else .ok (.vdict rest)

/- The recursive walk of decode_object (source lines 110-125): every value
that is itself a dict or list is passed through decode_object again; other
values are kept.  decodeObjVal is that conditional re-application, the
list and pairs walkers rebuild the container. -/
mutual

def decodeObjVal (ns : Namespace) : PyVal → Except PyErr PyVal
  | .vlist xs =>
    (match decodeObjList ns xs with
     | .ok ys => .ok (.vlist ys)
     | .error e => .error e)
  | .vdict kvs =>
    (match decodeObjPairs ns kvs with
     | .ok ps => handleDict ns ps
     | .error e => .error e)
  | v => .ok v

def decodeObjList (ns : Namespace) : PyList → Except PyErr PyList
  | .nil => .ok .nil
  | .cons x xs =>
    (match decodeObjVal ns x, decodeObjList ns xs with
     | .ok y, .ok ys => .ok (.cons y ys)
     | .error e, _ => .error e
     | _, .error e => .error e)

def decodeObjPairs (ns : Namespace) : PyPairs → Except PyErr PyPairs
  | .nil => .ok .nil
  | .cons k v rest =>
    (match decodeObjVal ns v, decodeObjPairs ns rest with
     | .ok w, .ok ps => .ok (.cons k w ps)
     | .error e, _ => .error e
     | _, .error e => .error e)

end

/-- JsonifyDecoder.decode_object as callable on a decoded dict or list; on
any other argument the local variable pairs is never assigned and Python
raises UnboundLocalError (source lines 112-118). -/
def decode_object (ns : Namespace) (v : PyVal) : Except PyErr PyVal :=
  match v with
  | .vlist _ => decodeObjVal ns v
  | .vdict _ => decodeObjVal ns v
  | _ => .error .unboundLocalError

/- json.loads with decode_object installed as object_hook: the parser
builds Python values bottom-up and passes every completed object (dict) to
the hook; arrays and scalars are returned directly.  Duplicate keys in
JSON object notation collapse as in dict construction before the hook
runs. -/
mutual

def loadJson (ns : Namespace) : Json → Except PyErr PyVal
  | .jNull => .ok .vnone
  | .jBool b => .ok (.vbool b)
  | .jInt n => .ok (.vint n)
  | .jStr s => .ok (.vstr s)
  | .jArr xs =>
    (match loadList ns xs with
     | .ok ys => .ok (.vlist ys)
     | .error e => .error e)
  | .jObj kvs =>
    (match loadPairs ns kvs with
     | .ok ps => decode_object ns (.vdict (pyDict ps))
     | .error e => .error e)

def loadList (ns : Namespace) : JsonList → Except PyErr PyList
  | .nil => .ok .nil
  | .cons x xs =>
    (match loadJson ns x, loadList ns xs with
     | .ok y, .ok ys => .ok (.cons y ys)
     | .error e, _ => .error e
     | _, .error e => .error e)

def loadPairs (ns : Namespace) : JsonPairs → Except PyErr PyPairs
  | .nil => .ok .nil
  | .cons k v rest =>
    (match loadJson ns v, loadPairs ns rest with
     | .ok w, .ok ps => .ok (.cons k w ps)
     | .error e, _ => .error e
     | _, .error e => .error e)

end

/-- jsonify.loads on the parsed text (source lines 166-184): when the
namespace parameter is omitted the global namespace of the jsonify module
is used; either way JsonifyDecoder adds the two built-in temporal markers
with setdefault. -/
def jsonifyLoads (ns? : Option Namespace) (j : Json) : Except PyErr PyVal :=
  match ns? with
  | none => loadJson (nsSetdefaults moduleGlobals) j
  | some ns => loadJson (nsSetdefaults ns) j

/-- The tagged object produced by JsonifyEncoder.default for a date
(source lines 89-97). -/
def dateTag (y m d : Int) : Json :=
  .jObj (.cons "__class__" (.jStr "_date")
    (.cons "__newargs__" (.jArr (.cons (.jInt y) (.cons (.jInt m) (.cons (.jInt d) .nil))))
      .nil))

/-- The tagged object produced by JsonifyEncoder.default for a datetime
(source lines 76-88). -/
def datetimeTag (y mo d h mi s us : Int) : Json :=
  .jObj (.cons "__class__" (.jStr "_datetime")
    (.cons "__newargs__"
      (.jArr (.cons (.jInt y) (.cons (.jInt mo) (.cons (.jInt d)
        (.cons (.jInt h) (.cons (.jInt mi) (.cons (.jInt s) (.cons (.jInt us) .nil))))))))
      .nil))

def jpAppend : JsonPairs → JsonPairs → JsonPairs
  | .nil, qs => qs
  | .cons k v rest, qs => .cons k v (jpAppend rest qs)

/- json.dumps with JsonifyEncoder (source lines 62-99 and 154-163):
scalars, lists and string-keyed dicts encode natively; for other objects
the default hook runs: an object with a json hook method (the Jsonable
mixin) contributes its non-dunder attributes plus the class-name marker;
datetimes and dates become tagged objects carrying their integer
components as newargs; anything else (such as a bytes value) raises
TypeError.  Instances in this model carry only their visible non-dunder
attributes (applyState strips dunder keys at creation), so the attribute
filter of the json hook passes all of them through. -/
mutual

def jsonifyEncode : PyVal → Except PyErr Json
  | .vnone => .ok .jNull
  | .vbool b => .ok (.jBool b)
  | .vint n => .ok (.jInt n)
  | .vstr s => .ok (.jStr s)
  | .vbytes _ => .error .typeError
  | .vdate y m d => .ok (dateTag y m d)
  | .vdatetime y mo d h mi s us => .ok (datetimeTag y mo d h mi s us)
  | .vlist xs =>
    (match jsonifyEncodeList xs with
     | .ok ys => .ok (.jArr ys)
     | .error e => .error e)
  | .vdict kvs =>
    (match jsonifyEncodePairs kvs with
     | .ok ps => .ok (.jObj ps)
     | .error e => .error e)
  | .vinst c attrs =>
    (match jsonifyEncodePairs attrs with
     | .ok ps => .ok (.jObj (jpAppend ps (.cons "__class__" (.jStr c) .nil)))
     | .error e => .error e)

def jsonifyEncodeList : PyList → Except PyErr JsonList
  | .nil => .ok .nil
  | .cons x xs =>
    (match jsonifyEncode x, jsonifyEncodeList xs with
     | .ok y, .ok ys => .ok (.cons y ys)
     | .error e, _ => .error e
     | _, .error e => .error e)

def jsonifyEncodePairs : PyPairs → Except PyErr JsonPairs
  | .nil => .ok .nil
  | .cons k v rest =>
    (match jsonifyEncode v, jsonifyEncodePairs rest with
     | .ok w, .ok ps => .ok (.cons k w ps)
     | .error e, _ => .error e
     | _, .error e => .error e)

end

/-- A serialization adapter: the stateless encode/decode pair bound into a
Collection (littledb.py Collection init takes adapter.from_dict and
adapter.to_dict). -/
structure AdapterModel where
  from_dict : PyVal → Except PyErr Blob
  to_dict : Blob → Except PyErr PyVal

/-- JsonAdapter (littledb.py lines 64-73): from_dict is jsonify.dumps
followed by UTF-8 encoding, to_dict is UTF-8 decoding followed by
jsonify.loads with the namespace omitted.  A byte string that is not
valid JSON text makes json.loads raise ValueError. -/
def jsonAdapter : AdapterModel where
  from_dict v :=
    match jsonifyEncode v with
    | .ok j => .ok (.jsonText j)
    | .error e => .error e
  to_dict b :=
    match b with
    | .jsonText j => jsonifyLoads none j
    | .otherBytes _ => .error .valueError

/-- A value of the sqlite content column: NULL, INTEGER, TEXT or BLOB
(floats are outside the modelled domain). -/
inductive SqlCell where
  | cNull : SqlCell
  | cInt (n : Int) : SqlCell
  | cText (s : String) : SqlCell
  | cBlob (b : Blob) : SqlCell

def pad2 (n : Int) : String := (if n < 10 then "0" else "") ++ toString n

def pad4 (n : Int) : String :=
  (if n < 10 then "000" else if n < 100 then "00" else if n < 1000 then "0" else "") ++
    toString n

def pad6 (n : Int) : String :=
  (if n < 10 then "00000" else if n < 100 then "0000" else if n < 1000 then "000"
   else if n < 10000 then "00" else if n < 100000 then "0" else "") ++ toString n

def isoDate (y m d : Int) : String := pad4 y ++ "-" ++ pad2 m ++ "-" ++ pad2 d

def isoDatetime (y mo d h mi s us : Int) : String :=
  isoDate y mo d ++ " " ++ pad2 h ++ ":" ++ pad2 mi ++ ":" ++ pad2 s ++
    (if us == 0 then "" else "." ++ pad6 us)

/-- Parameter binding performed by Collection.set (littledb.py lines
135-144) together with the sqlite3 driver: a dict is first encoded by the
bound adapter and stored as a BLOB; None, bool, int, str and bytes bind
natively (bool narrows to INTEGER 0 or 1); date and datetime values hit
the default sqlite3 adapters and are stored as their ISO text; lists and
instances are unsupported binding types and raise InterfaceError. -/
def toCell (A : AdapterModel) : PyVal → Except PyErr SqlCell
  | .vdict kvs =>
    (match A.from_dict (.vdict kvs) with
     | .ok b => .ok (.cBlob b)
     | .error e => .error e)
  | .vnone => .ok .cNull
  | .vbool b => .ok (.cInt (if b then 1 else 0))
  | .vint n => .ok (.cInt n)
  | .vstr s => .ok (.cText s)
  | .vbytes b => .ok (.cBlob b)
  | .vdate y m d => .ok (.cText (isoDate y m d))
  | .vdatetime y mo d h mi s us => .ok (.cText (isoDatetime y mo d h mi s us))
  | .vlist _ => .error .interfaceError
  | .vinst _ _ => .error .interfaceError

/-- The key-to-content rows of the one table a Collection is bound to. -/
abbrev SqlTable := List (String × SqlCell)

/-- INSERT OR REPLACE keyed on the primary key. -/
def tableUpsert : SqlTable → String → SqlCell → SqlTable
  | [], k, c => [(k, c)]
  | (k2, c2) :: rest, k, c =>
    if k2 = k then (k, c) :: rest else (k2, c2) :: tableUpsert rest k c

/-- The number of rows carrying the key. -/
def keyCount (t : SqlTable) (k : String) : Nat :=
  (t.filter (fun p => p.1 == k)).length

def tableNodup : SqlTable → Bool
  | [] => true
  | (k, _) :: rest => !(rest.any (fun p => p.1 == k)) && tableNodup rest

/-- The state of the per-thread sqlite connection for the bound table:
the durable (committed) rows, the rows as this connection sees them
(pending, including uncommitted writes), and whether a transaction is
open (con.in_transaction). -/
structure ConnState where
  committed : SqlTable
  pending : SqlTable
  in_transaction : Bool

/-- Reading back one content cell in Collection.get (littledb.py lines
128-131): BLOB content is passed through the bound adapter decode, any
other content is returned unchanged. -/
def cellRead (A : AdapterModel) : SqlCell → Except PyErr PyVal
  | .cNull => .ok .vnone
  | .cInt n => .ok (.vint n)
  | .cText s => .ok (.vstr s)
  | .cBlob b => A.to_dict b

/-- Collection.get (littledb.py lines 118-131): SELECT by key on this
connection (uncommitted writes of the same connection are visible); a
missing row raises KeyError; otherwise the cell is read back. -/
def Collection.get (A : AdapterModel) (st : ConnState) (key : String) : Except PyErr PyVal :=
  match lookupKV st.pending key with
  | none => .error (.keyError key)
  | some cell => cellRead A cell

/-- Collection.set (littledb.py lines 135-144): a dict value is encoded
via the adapter, then INSERT OR REPLACE runs; if a transaction is open on
the connection the statement joins it and nothing is committed, otherwise
the with-block wraps the write in its own commit. -/
def Collection.set (A : AdapterModel) (st : ConnState) (key : String) (data : PyVal) :
    Except PyErr ConnState :=
  match toCell A data with
  | .error e => .error e
  | .ok cell =>
    if st.in_transaction then
      .ok { st with pending := tableUpsert st.pending key cell }
    else
      .ok { committed := tableUpsert st.committed key cell,
            pending := tableUpsert st.committed key cell,
            in_transaction := false }

/-- LittleDB.begin (littledb.py lines 172-173): BEGIN TRANSACTION; sqlite
raises OperationalError when a transaction is already active. -/
def LittleDB.begin (st : ConnState) : Except PyErr ConnState :=
  if st.in_transaction then .error .operationalError
  else .ok { st with in_transaction := true }

/-- LittleDB.commit (littledb.py lines 175-176). -/
def LittleDB.commit (st : ConnState) : ConnState :=
  { committed := st.pending, pending := st.pending, in_transaction := false }

/-- Collection.begin (littledb.py lines 151-152) calls
self.db.begin_transaction(), a method LittleDB does not define, so it
always raises AttributeError. -/
def Collection.begin (_ : ConnState) : Except PyErr ConnState :=
  .error .attributeError

/-- The classes registered in the adapter registry.  MsgPackAdapter only
exists when the optional umsgpack library imports; the claims under
examination do not depend on it, so the registry is modelled without
it. -/
inductive AdapterCls where
  | base : AdapterCls
  | pickleCls : AdapterCls
  | jsonCls : AdapterCls

/-- The process-wide registry RegistrableMeta.registry after import of
littledb (littledb.py lines 35-73): the metaclass init runs for every
class it creates, including the Adapter base itself, which registers
under its format None; then PickleAdapter and JsonAdapter. -/
def adapterRegistry : List (Option String × AdapterCls) :=
  [(none, .base), (some "pickle", .pickleCls), (some "json", .jsonCls)]

/-- Whether instances of the class have from_dict and to_dict: the base
Adapter defines neither. -/
def hasDictHooks : AdapterCls → Bool
  | .base => false
  | _ => true

/-- The per-Store state seen by get_collection: the lazily filled
format-to-adapter-instance cache and the set of created tables. -/
structure StoreState where
  adapters : List (Option String × AdapterCls)
  tables : List String

inductive StoreErr where
  | formatNotFound : StoreErr
  | attributeError : StoreErr
  | unboundLocalError : StoreErr

/-- CREATE TABLE IF NOT EXISTS. -/
def createTable (ts : List String) (n : String) : List String :=
  if ts.contains n then ts else ts ++ [n]

/-- LittleDB.get_collection (littledb.py lines 183-194).  When the format
is not cached, the registry is consulted; an unregistered format raises
NotImplementedError (the format-not-found condition) before any table is
created.  On a registry hit the adapter is cached, the table is created,
and the Collection constructor binds adapter.from_dict, which raises
AttributeError when the class has no such attribute (the base Adapter).
When the format is already cached, the local variable adapter is never
assigned, so after the table is created the Collection construction line
raises UnboundLocalError. -/
def LittleDB.get_collection (st : StoreState) (name : String) (format : Option String) :
    StoreState × Except StoreErr (String × AdapterCls) :=
  match lookupKV st.adapters format with
  | some _ =>
    ({ st with tables := createTable st.tables name }, .error .unboundLocalError)
  | none =>
    match lookupKV adapterRegistry format with
    | none => (st, .error .formatNotFound)
    | some cls =>
      let st2 : StoreState := ⟨st.adapters ++ [(format, cls)], createTable st.tables name⟩
      if hasDictHooks cls then (st2, .ok (name, cls))
      else (st2, .error .attributeError)

/- Values that are plain data for the structured-text codec: no byte
strings, no instances, temporal components in the ranges the datetime
constructors accept, dict keys distinct and never the reserved class
marker. -/
mutual

def plainVal : PyVal → Bool
  | .vnone => true
  | .vbool _ => true
  | .vint _ => true
  | .vstr _ => true
  | .vbytes _ => false
  | .vdate y m d => validDate y m d
  | .vdatetime y mo d h mi s us => validDate y mo d && validTime h mi s us
  | .vlist xs => plainList xs
  | .vdict kvs => pyNodupKeys kvs && plainPairs kvs
  | .vinst _ _ => false

def plainList : PyList → Bool
  | .nil => true
  | .cons x xs => plainVal x && plainList xs

def plainPairs : PyPairs → Bool
  | .nil => true
  | .cons k v rest => (k != "__class__") && plainVal v && plainPairs rest

end

/-- Scalars that the sqlite layer returns verbatim on read-back (a bool is
narrowed to its integer, which Python still reports equal to the bool). -/
def simpleScalar : PyVal → Bool
  | .vnone => true
  | .vbool _ => true
  | .vint _ => true
  | .vstr _ => true
  | _ => false

/-- The narrowing the sqlite integer binding applies to a bool; identity
on everything else in the guaranteed domain. -/
def sqlNarrow : PyVal → PyVal
  | .vbool b => .vint (if b then 1 else 0)
  | v => v

def isDictVal : PyVal → Bool
  | .vdict _ => true
  | _ => false

/-- Decode after encode through one adapter. -/
def adapterRT (A : AdapterModel) (v : PyVal) : Except PyErr PyVal :=
  match A.from_dict v with
  | .ok b => A.to_dict b
  | .error e => .error e

/-- Every format in the adapter cache of a Store appears in the registry
(the cache is only ever filled from registry hits). -/
def cacheRegistered (ads : List (Option String × AdapterCls)) : Bool :=
  ads.all (fun p => (lookupKV adapterRegistry p.1).isSome)

/- Occurrence of a given string as a string node inside a JSON tree. -/
mutual

def jsonHasStrVal (s : String) : Json → Bool
  | .jStr t => t == s
  | .jArr xs => jsonListHasStrVal s xs
  | .jObj kvs => jsonPairsHasStrVal s kvs
  | _ => false

def jsonListHasStrVal (s : String) : JsonList → Bool
  | .nil => false
  | .cons x xs => jsonHasStrVal s x || jsonListHasStrVal s xs

def jsonPairsHasStrVal (s : String) : JsonPairs → Bool
  | .nil => false
  | .cons _ v rest => jsonHasStrVal s v || jsonPairsHasStrVal s rest

end

/-- Simultaneous structural induction over the PyVal family. -/
def pyValInd {P : PyVal → Prop} {Q : PyList → Prop} {R : PyPairs → Prop}
    (hnone : P .vnone) (hbool : ∀ b, P (.vbool b)) (hint : ∀ n, P (.vint n))
    (hstr : ∀ s, P (.vstr s)) (hbytes : ∀ b, P (.vbytes b))
    (hdate : ∀ y m d, P (.vdate y m d))
    (hdatetime : ∀ y mo d h mi s us, P (.vdatetime y mo d h mi s us))
    (hlist : ∀ xs, Q xs → P (.vlist xs))
    (hdict : ∀ kvs, R kvs → P (.vdict kvs))
    (hinst : ∀ c attrs, R attrs → P (.vinst c attrs))
    (hqnil : Q .nil) (hqcons : ∀ x xs, P x → Q xs → Q (.cons x xs))
    (hrnil : R .nil) (hrcons : ∀ k v rest, P v → R rest → R (.cons k v rest)) :
    ∀ v, P v :=
  fun v =>
    @PyVal.rec P Q R hnone hbool hint hstr hbytes hdate hdatetime hlist hdict hinst
      hqnil hqcons hrnil hrcons v

theorem lookup_tableUpsert (t : SqlTable) (k : String) (c : SqlCell) :
    lookupKV (tableUpsert t k c) k = some c := by
  induction t with
  | nil => simp [tableUpsert, lookupKV]
  | cons p rest ih =>
    obtain ⟨k2, c2⟩ := p
    by_cases hp : k2 = k
    · simp [tableUpsert, hp, lookupKV]
    · simp [tableUpsert, hp, lookupKV, ih]

theorem tableUpsert_collapse (t : SqlTable) (k : String) (c1 c2 : SqlCell) :
    tableUpsert (tableUpsert t k c1) k c2 = tableUpsert t k c2 := by
  induction t with
  | nil => simp [tableUpsert]
  | cons p rest ih =>
    obtain ⟨k2, d2⟩ := p
    by_cases hp : k2 = k
    · simp [tableUpsert, hp]
    · simp [tableUpsert, hp, ih]

theorem keyCount_zero (t : SqlTable) (k : String)
    (h : t.any (fun p => p.1 == k) = false) : keyCount t k = 0 := by
  induction t with
  | nil => rfl
  | cons p rest ih =>
    simp only [List.any_cons, Bool.or_eq_false_iff] at h
    simp [keyCount, List.filter, h.1]
    have := ih h.2
    simpa [keyCount] using this

theorem keyCount_tableUpsert (t : SqlTable) (k : String) (c : SqlCell)
    (h : tableNodup t = true) : keyCount (tableUpsert t k c) k = 1 := by
  induction t with
  | nil => simp [tableUpsert, keyCount, List.filter]
  | cons p rest ih =>
    obtain ⟨k2, c2⟩ := p
    simp only [tableNodup, Bool.and_eq_true, Bool.not_eq_true'] at h
    by_cases hp : k2 = k
    · subst hp
      have h0 : keyCount rest k2 = 0 := keyCount_zero rest k2 h.1
      simp [tableUpsert, keyCount, List.filter]
      simpa [keyCount] using h0
    · have : (k2 == k) = false := by simp [hp]
      simp [tableUpsert, hp, keyCount, List.filter, this]
      simpa [keyCount] using ih h.2

theorem cache_lookup_none (ads : List (Option String × AdapterCls)) (fmt : Option String)
    (hc : cacheRegistered ads = true) (hr : lookupKV adapterRegistry fmt = none) :
    lookupKV ads fmt = none := by
  induction ads with
  | nil => rfl
  | cons p rest ih =>
    obtain ⟨k, v⟩ := p
    simp only [cacheRegistered, List.all_cons, Bool.and_eq_true] at hc
    by_cases hk : k = fmt
    · subst hk
      rw [hr] at hc
      simp at hc
    · simpa [lookupKV, hk] using ih hc.2

theorem createTable_contains (ts : List String) (n : String) :
    n ∈ createTable ts n := by
  by_cases h : n ∈ ts <;> simp [createTable, h]

/-- C5: asking a Store for a format that is not in the adapter registry
raises the format-not-found error (NotImplementedError) before anything
else happens: the store state, in particular its set of created tables,
is returned unchanged.  The adapter cache only ever holds registered
formats, which the cacheRegistered hypothesis records. -/
theorem claim5_format_not_found (st : StoreState) (name : String) (fmt : Option String)
    (hc : cacheRegistered st.adapters = true)
    (hr : lookupKV adapterRegistry fmt = none) :
    LittleDB.get_collection st name fmt = (st, .error .formatNotFound) := by
  have hnone := cache_lookup_none st.adapters fmt hc hr
  simp [LittleDB.get_collection, hnone, hr]

/-- C5 witness: a fresh store asked for an unregistered format. -/
theorem claim5_witness :
    LittleDB.get_collection ⟨[], []⟩ "documents" (some "yaml") =
      (⟨[], []⟩, .error .formatNotFound) :=
  claim5_format_not_found ⟨[], []⟩ "documents" (some "yaml") rfl rfl

/-- C8: a Collection.set call on a connection with an open transaction
participates in that transaction: the pending rows receive the upsert,
the committed rows are untouched, and the transaction stays open.  On a
connection without an open transaction the write lands committed (the
with-block wraps it in its own commit). -/
theorem claim8_transaction_scope (A : AdapterModel) (st : ConnState) (k : String)
    (v : PyVal) (c : SqlCell) (h : toCell A v = .ok c) :
    (st.in_transaction = true →
      Collection.set A st k v =
        .ok ⟨st.committed, tableUpsert st.pending k c, true⟩) ∧
    (st.in_transaction = false →
      Collection.set A st k v =
        .ok ⟨tableUpsert st.committed k c, tableUpsert st.committed k c, false⟩) := by
  obtain ⟨cm, pd, tx⟩ := st
  constructor <;> intro ht <;> simp only at ht <;> subst ht <;>
    simp [Collection.set, h]

/-- C8 witness: inside an open transaction the write stays uncommitted
and the transaction stays open. -/
theorem claim8_witness :
    Collection.set jsonAdapter ⟨[], [], true⟩ "k" (.vint 1) =
      .ok ⟨[], [("k", .cInt 1)], true⟩ :=
  (claim8_transaction_scope jsonAdapter ⟨[], [], true⟩ "k" (.vint 1) (.cInt 1) rfl).1 rfl

/-- C9: Collection.get on a key with no row raises KeyError. -/
theorem claim9_missing_key (A : AdapterModel) (st : ConnState) (k : String)
    (h : lookupKV st.pending k = none) :
    Collection.get A st k = .error (.keyError k) := by
  simp [Collection.get, h]

/-- C9 witness: an empty collection. -/
theorem claim9_witness :
    Collection.get jsonAdapter ⟨[], [], false⟩ "missing" =
      .error (.keyError "missing") :=
  claim9_missing_key jsonAdapter ⟨[], [], false⟩ "missing" rfl

/-- C10 (amended): the registry maps the format None to the Adapter base
class (the registering metaclass runs for every class it builds,
including the base), so for every Store get_collection with format None
never reports format-not-found and always creates the backing table; the
call then fails, with AttributeError from the Collection constructor
binding adapter.from_dict as long as the None adapter is not yet cached
(in particular on the first such request of any Store), but with the
UnboundLocalError of the broken caching branch once a previous None
request has filled the cache. -/
theorem claim10_none_format (st : StoreState) (name : String) :
    lookupKV adapterRegistry none = some .base ∧
    (LittleDB.get_collection st name none).2 ≠ .error .formatNotFound ∧
    (name ∈ (LittleDB.get_collection st name none).1.tables) ∧
    (lookupKV st.adapters none = none →
      LittleDB.get_collection st name none =
        ({ adapters := st.adapters ++ [(none, .base)],
           tables := createTable st.tables name }, .error .attributeError)) ∧
    (∀ c, lookupKV st.adapters none = some c →
      LittleDB.get_collection st name none =
        ({ st with tables := createTable st.tables name },
          .error .unboundLocalError)) := by
  have hreg : lookupKV adapterRegistry none = some AdapterCls.base := rfl
  refine ⟨hreg, ?_, ?_, ?_, ?_⟩
  · cases hc : lookupKV st.adapters none <;>
      simp [LittleDB.get_collection, hc, hreg, hasDictHooks]
  · cases hc : lookupKV st.adapters none <;>
      simp [LittleDB.get_collection, hc, hreg, hasDictHooks, createTable_contains]
  · intro hc
    simp [LittleDB.get_collection, hc, hreg, hasDictHooks]
  · intro c hc
    simp [LittleDB.get_collection, hc]

/-- C10 witness: a fresh store asked for format None fails with the
attribute error after creating the table. -/
theorem claim10_witness :
    LittleDB.get_collection ⟨[], []⟩ "documents" none =
      (⟨[(none, .base)], ["documents"]⟩, .error .attributeError) := by
  have h := (claim10_none_format ⟨[], []⟩ "documents").2.2.2.1 rfl
  simpa [createTable] using h

/-- C10 counterexample: the claim asserts the attribute-error failure for
every Store, but the store state reached by a first None request (which
caches the base adapter before failing) is a Store on which a second
request raises UnboundLocalError, not AttributeError: the local variable
adapter is never assigned on the cached branch. -/
theorem claim10_counterexample :
    LittleDB.get_collection ⟨[], []⟩ "documents" none =
      (⟨[(none, .base)], ["documents"]⟩, .error .attributeError) ∧
    LittleDB.get_collection ⟨[(none, .base)], ["documents"]⟩ "documents" none =
      (⟨[(none, .base)], ["documents"]⟩, .error .unboundLocalError) ∧
    StoreErr.unboundLocalError ≠ .attributeError :=
  ⟨rfl, rfl, fun h => StoreErr.noConfusion h⟩

theorem loadJson_unresolved (ns : Namespace) (s : String)
    (h1 : s ≠ "") (h2 : s ≠ "__class__") (h3 : s ∉ dictAttrNames)
    (h4 : lookupKV ns s = none) :
    loadJson ns (.jObj (.cons "__class__" (.jStr s) .nil)) = .error (.nameError s) := by
  simp [loadJson, loadPairs, pyDict, pyDictAux, pyLastVal, decode_object, decodeObjVal,
    decodeObjPairs, handleDict, pyLookup, pyErase, pyTruthy, resolveMarker,
    h1, h2, h3, h4]

/-- C2 (amended): the structured-text encoder turns a date into a tagged
object with the reserved marker key identifying the type and a newargs
array holding the integer components year, month, day; a datetime gets
the seven integer components down to the microsecond.  No formatted
timestamp string is involved (the module defines DATE_FMT and
DATETIME_FMT but never uses them). -/
theorem claim2_temporal_encoding :
    (∀ y m d : Int, jsonifyEncode (.vdate y m d) = .ok (dateTag y m d)) ∧
    (∀ y mo d h mi s us : Int,
      jsonifyEncode (.vdatetime y mo d h mi s us) = .ok (datetimeTag y mo d h mi s us)) :=
  ⟨fun _ _ _ => rfl, fun _ _ _ _ _ _ _ => rfl⟩

/-- C2 counterexample: the encoding of the date 2020-01-02 (and of the
datetime 2020-01-02 03:04:05.000006) contains no string node carrying the
fixed-format timestamp (YYYYMMDD, respectively
YYYYMMDDTHH:MM:SS.ffffff) that the claim asserts; the newargs value is an
array of integers. -/
theorem claim2_counterexample :
    jsonifyEncode (.vdate 2020 1 2) = .ok (dateTag 2020 1 2) ∧
    jsonHasStrVal "20200102" (dateTag 2020 1 2) = false ∧
    jsonifyEncode (.vdatetime 2020 1 2 3 4 5 6) = .ok (datetimeTag 2020 1 2 3 4 5 6) ∧
    jsonHasStrVal "20200102T03:04:05.000006" (datetimeTag 2020 1 2 3 4 5 6) = false :=
  ⟨rfl, rfl, rfl, rfl⟩

/-- C3 (amended): when the namespace parameter of loads is omitted, the
decoder resolves markers against the global namespace of the jsonify
module itself (with the two temporal markers added), so markers naming
module-level bindings do not fail; only a marker that is neither an
attribute of the namespace dict nor one of its entries raises the
name-not-found error. -/
theorem claim3_default_namespace (s : String)
    (h1 : s ≠ "") (h2 : s ≠ "__class__") (h3 : s ∉ dictAttrNames)
    (h4 : lookupKV defaultNamespace s = none) :
    jsonifyLoads none (.jObj (.cons "__class__" (.jStr s) .nil)) =
      .error (.nameError s) :=
  loadJson_unresolved defaultNamespace s h1 h2 h3 h4

/-- C3 witness: a marker absent from the module namespace fails. -/
theorem claim3_witness :
    jsonifyLoads none (.jObj (.cons "__class__" (.jStr "SomeClass") .nil)) =
      .error (.nameError "SomeClass") :=
  claim3_default_namespace "SomeClass" (by decide) (by decide) (by decide) rfl

/-- C3 counterexample: with the namespace omitted, the marker Jsonable (a
module-level class, not one of the two built-in temporal markers) is
resolved through the module globals and decoding succeeds, producing an
instance instead of failing. -/
theorem claim3_counterexample :
    jsonifyLoads none (.jObj (.cons "__class__" (.jStr "Jsonable") .nil)) =
      .ok (.vinst "Jsonable" .nil) ∧
    "Jsonable" ≠ "_date" ∧ "Jsonable" ≠ "_datetime" :=
  ⟨rfl, by decide, by decide⟩

/-- C6 (amended): decode of a tagged object whose marker is a non-empty
string that resolves neither as an attribute of the supplied namespace
dict nor as one of its entries (after the two temporal defaults are
added) raises the name-not-found error.  An object whose marker value is
falsy (such as the empty string) is instead passed through as a plain
mapping with the marker key removed. -/
theorem claim6_unresolved_marker (ns : Namespace) (s : String)
    (h1 : s ≠ "") (h2 : s ≠ "__class__") (h3 : s ∉ dictAttrNames)
    (h4 : lookupKV (nsSetdefaults ns) s = none) :
    jsonifyLoads (some ns) (.jObj (.cons "__class__" (.jStr s) .nil)) =
      .error (.nameError s) :=
  loadJson_unresolved (nsSetdefaults ns) s h1 h2 h3 h4

/-- C6 witness: an empty supplied namespace and an ordinary marker. -/
theorem claim6_witness :
    jsonifyLoads (some []) (.jObj (.cons "__class__" (.jStr "Widget") .nil)) =
      .error (.nameError "Widget") :=
  claim6_unresolved_marker [] "Widget" (by decide) (by decide) (by decide) rfl

/-- C6 counterexample: a tagged object whose marker value is the empty
string, unresolvable in the supplied (empty) namespace, does not raise;
it is silently passed through as a plain mapping with the marker key
stripped. -/
theorem claim6_counterexample :
    jsonifyLoads (some []) (.jObj (.cons "__class__" (.jStr "") .nil)) =
      .ok (.vdict .nil) ∧
    lookupKV (nsSetdefaults []) "" = none :=
  ⟨rfl, rfl⟩

theorem loadJson_dateTag (y m d : Int) (h : validDate y m d = true) :
    loadJson defaultNamespace (dateTag y m d) = .ok (.vdate y m d) := by
  simp [loadJson, loadList, loadPairs, dateTag, pyDict, pyDictAux, pyLastVal,
    decode_object, decodeObjVal, decodeObjList, decodeObjPairs, handleDict,
    pyLookup, pyErase, pyTruthy, resolveMarker, starArgs, intArgs, applyNew,
    applyState, ppAllDunder, defaultNamespace, nsSetdefaults, moduleGlobals,
    lookupKV, dictAttrNames, h]

theorem loadJson_datetimeTag (y mo d h mi s us : Int)
    (hd : validDate y mo d = true) (ht : validTime h mi s us = true) :
    loadJson defaultNamespace (datetimeTag y mo d h mi s us) =
      .ok (.vdatetime y mo d h mi s us) := by
  simp [loadJson, loadList, loadPairs, datetimeTag, pyDict, pyDictAux, pyLastVal,
    decode_object, decodeObjVal, decodeObjList, decodeObjPairs, handleDict,
    pyLookup, pyErase, pyTruthy, resolveMarker, starArgs, intArgs, applyNew,
    mkDatetime, applyState, ppAllDunder, defaultNamespace, nsSetdefaults, moduleGlobals,
    lookupKV, dictAttrNames, hd, ht]

theorem pyLastVal_no_key : ∀ (ps : PyPairs) (q : String) (d : PyVal),
    pyHasKey ps q = false → pyLastVal ps q d = d
  | .nil, _, _, _ => rfl
  | .cons k v rest, q, d, h => by
    simp only [pyHasKey, Bool.or_eq_false_iff] at h
    have hk : ¬ k = q := by simpa using h.1
    simp [pyLastVal, hk, pyLastVal_no_key rest q d h.2]

theorem pyDictAux_nodup : ∀ (ps : PyPairs) (seen : List String),
    pyNodupKeys ps = true → (∀ q, pyHasKey ps q = true → q ∉ seen) →
    pyDictAux seen ps = ps
  | .nil, _, _, _ => rfl
  | .cons k v rest, seen, hnd, hseen => by
    simp only [pyNodupKeys, Bool.and_eq_true, Bool.not_eq_true'] at hnd
    have hk : k ∉ seen := hseen k (by simp [pyHasKey])
    have hlast : pyLastVal rest k v = v := pyLastVal_no_key rest k v hnd.1
    have hrec : pyDictAux (k :: seen) rest = rest := by
      refine pyDictAux_nodup rest (k :: seen) hnd.2 ?_
      intro q hq
      simp only [List.mem_cons, not_or]
      constructor
      · intro hqk
        subst hqk
        rw [hnd.1] at hq
        exact Bool.false_ne_true hq
      · exact hseen q (by simp [pyHasKey, hq])
    simp [pyDictAux, hk, hlast, hrec]

theorem pyDict_nodup (ps : PyPairs) (h : pyNodupKeys ps = true) : pyDict ps = ps :=
  pyDictAux_nodup ps [] h (fun q _ => by simp)

theorem plainPairs_no_class : ∀ ps : PyPairs, plainPairs ps = true →
    pyLookup ps "__class__" = none
  | .nil, _ => rfl
  | .cons k v rest, h => by
    simp only [plainPairs, Bool.and_eq_true, bne_iff_ne, ne_eq] at h
    simp [pyLookup, h.1.1, plainPairs_no_class rest h.2]

theorem plain_fixpoint_roundtrip :
    ∀ v : PyVal, plainVal v = true →
      decodeObjVal defaultNamespace v = .ok v ∧
      ∃ j, jsonifyEncode v = .ok j ∧ loadJson defaultNamespace j = .ok v := by
  refine pyValInd
    (Q := fun xs => plainList xs = true →
      decodeObjList defaultNamespace xs = .ok xs ∧
      ∃ js, jsonifyEncodeList xs = .ok js ∧ loadList defaultNamespace js = .ok xs)
    (R := fun ps => plainPairs ps = true →
      decodeObjPairs defaultNamespace ps = .ok ps ∧
      ∃ js, jsonifyEncodePairs ps = .ok js ∧ loadPairs defaultNamespace js = .ok ps)
    ?_ ?_ ?_ ?_ ?_ ?_ ?_ ?_ ?_ ?_ ?_ ?_ ?_ ?_
  · exact fun _ => ⟨rfl, .jNull, rfl, rfl⟩
  · exact fun b _ => ⟨rfl, .jBool b, rfl, rfl⟩
  · exact fun n _ => ⟨rfl, .jInt n, rfl, rfl⟩
  · exact fun s _ => ⟨rfl, .jStr s, rfl, rfl⟩
  · intro b h
    simp [plainVal] at h
  · intro y m d h
    simp only [plainVal] at h
    exact ⟨rfl, dateTag y m d, rfl, loadJson_dateTag y m d h⟩
  · intro y mo d hh mi s us h
    simp only [plainVal, Bool.and_eq_true] at h
    exact ⟨rfl, datetimeTag y mo d hh mi s us, rfl,
      loadJson_datetimeTag y mo d hh mi s us h.1 h.2⟩
  · intro xs ih h
    simp only [plainVal] at h
    obtain ⟨hdec, js, henc, hload⟩ := ih h
    refine ⟨?_, .jArr js, ?_, ?_⟩
    · simp [decodeObjVal, hdec]
    · simp [jsonifyEncode, henc]
    · simp [loadJson, hload]
  · intro kvs ih h
    simp only [plainVal, Bool.and_eq_true] at h
    obtain ⟨hdec, js, henc, hload⟩ := ih h.2
    have hfix : decodeObjVal defaultNamespace (.vdict kvs) = .ok (.vdict kvs) := by
      simp [decodeObjVal, hdec, handleDict, pyDict_nodup kvs h.1,
        plainPairs_no_class kvs h.2]
    refine ⟨hfix, .jObj js, ?_, ?_⟩
    · simp [jsonifyEncode, henc]
    · simp only [loadJson, hload]
      rw [pyDict_nodup kvs h.1]
      simpa [decode_object] using hfix
  · intro c attrs _ h
    simp [plainVal] at h
  · exact fun _ => ⟨rfl, .nil, rfl, rfl⟩
  · intro x xs ihx ihxs h
    simp only [plainList, Bool.and_eq_true] at h
    obtain ⟨hdx, jx, hex, hlx⟩ := ihx h.1
    obtain ⟨hdxs, jxs, hexs, hlxs⟩ := ihxs h.2
    refine ⟨?_, .cons jx jxs, ?_, ?_⟩
    · simp [decodeObjList, hdx, hdxs]
    · simp [jsonifyEncodeList, hex, hexs]
    · simp [loadList, hlx, hlxs]
  · exact fun _ => ⟨rfl, .nil, rfl, rfl⟩
  · intro k v rest ihv ihrest h
    simp only [plainPairs, Bool.and_eq_true, bne_iff_ne, ne_eq] at h
    obtain ⟨hdv, jv, hev, hlv⟩ := ihv h.1.2
    obtain ⟨hdr, jr, her, hlr⟩ := ihrest h.2
    refine ⟨?_, .cons k jv jr, ?_, ?_⟩
    · simp [decodeObjPairs, hdv, hdr]
    · simp [jsonifyEncodePairs, hev, her]
    · simp [loadPairs, hlv, hlr]

/-- C4 (amended): decode after encode through the structured-text codec is
the identity on every plain value: values built from None, bool, int and
str scalars, valid dates and datetimes at microsecond precision, nested
sequences, and mappings with distinct keys none of which is the reserved
marker key.  A mapping that does use the reserved marker key is
reinterpreted by the decoder (for example as a date), so the unrestricted
claim fails; the native-serialization codec delegates to the host pickle
library, whose round-trip is the contract of that library, and the compact
binary codec is optional. -/
theorem claim4_codec_roundtrip (v : PyVal) (h : plainVal v = true) :
    ∃ b, jsonAdapter.from_dict v = .ok b ∧ jsonAdapter.to_dict b = .ok v := by
  obtain ⟨-, j, henc, hdec⟩ := plain_fixpoint_roundtrip v h
  refine ⟨.jsonText j, ?_, ?_⟩
  · simp [jsonAdapter, henc]
  · simpa [jsonAdapter, jsonifyLoads, defaultNamespace] using hdec

/-- C4 witness: a nested mapping with a list and a leap-day date. -/
theorem claim4_witness :
    ∃ b, jsonAdapter.from_dict
        (.vdict (.cons "a" (.vlist (.cons (.vint 1) (.cons (.vstr "x") .nil)))
          (.cons "d" (.vdate 2020 2 29) .nil))) = .ok b ∧
      jsonAdapter.to_dict b =
        .ok (.vdict (.cons "a" (.vlist (.cons (.vint 1) (.cons (.vstr "x") .nil)))
          (.cons "d" (.vdate 2020 2 29) .nil))) :=
  claim4_codec_roundtrip _ rfl

/-- C4 counterexample: the mapping carrying the reserved marker key with
value _date and a newargs list is a value the codec encodes without
error, but decoding its encoding yields the date object, not the mapping:
decode after encode is not the identity on it. -/
theorem claim4_counterexample :
    jsonAdapter.from_dict
        (.vdict (.cons "__class__" (.vstr "_date")
          (.cons "__newargs__"
            (.vlist (.cons (.vint 2020) (.cons (.vint 1) (.cons (.vint 1) .nil)))) .nil))) =
      .ok (.jsonText (dateTag 2020 1 1)) ∧
    jsonAdapter.to_dict (.jsonText (dateTag 2020 1 1)) = .ok (.vdate 2020 1 1) ∧
    PyVal.vdate 2020 1 1 ≠
      .vdict (.cons "__class__" (.vstr "_date")
        (.cons "__newargs__"
          (.vlist (.cons (.vint 2020) (.cons (.vint 1) (.cons (.vint 1) .nil)))) .nil)) :=
  ⟨rfl, rfl, fun hEq => PyVal.noConfusion hEq⟩

theorem set_ok_get (A : AdapterModel) (st : ConnState) (k : String) (v : PyVal)
    (c : SqlCell) (hc : toCell A v = .ok c) :
    ∃ st2, Collection.set A st k v = .ok st2 ∧
      Collection.get A st2 k = cellRead A c := by
  by_cases htx : st.in_transaction = true
  · refine ⟨⟨st.committed, tableUpsert st.pending k c, st.in_transaction⟩, ?_, ?_⟩
    · simp [Collection.set, hc, htx]
    · simp [Collection.get, lookup_tableUpsert]
  · refine ⟨⟨tableUpsert st.committed k c, tableUpsert st.committed k c, false⟩, ?_, ?_⟩
    · simp only [Bool.not_eq_true] at htx
      simp [Collection.set, hc, htx]
    · simp [Collection.get, lookup_tableUpsert]

/-- C1 (amended): set followed by get returns a value Python reports equal
to the one stored when the value is a None, bool, int or str scalar (a
bool comes back as its integer, which Python still reports equal), or a
mapping on which the bound codec round-trips.  A raw byte-string scalar
is indeed stored un-encoded, but get passes any BLOB content through the
codec decode, so byte strings do not come back (see the counterexample);
date and datetime scalars are likewise narrowed to ISO text by the
sqlite3 default adapters. -/
theorem claim1_set_get (A : AdapterModel) (st : ConnState) (k : String) (v : PyVal)
    (h : simpleScalar v = true ∨ (isDictVal v = true ∧ adapterRT A v = .ok v)) :
    ∃ st2, Collection.set A st k v = .ok st2 ∧
      Collection.get A st2 k = .ok (sqlNarrow v) := by
  obtain hs | ⟨hd, hrt⟩ := h
  · cases v with
    | vnone =>
      obtain ⟨st2, h1, h2⟩ := set_ok_get A st k .vnone .cNull rfl
      exact ⟨st2, h1, by simpa [cellRead, sqlNarrow] using h2⟩
    | vbool b =>
      obtain ⟨st2, h1, h2⟩ := set_ok_get A st k (.vbool b) (.cInt (if b then 1 else 0)) rfl
      exact ⟨st2, h1, by simpa [cellRead, sqlNarrow] using h2⟩
    | vint n =>
      obtain ⟨st2, h1, h2⟩ := set_ok_get A st k (.vint n) (.cInt n) rfl
      exact ⟨st2, h1, by simpa [cellRead, sqlNarrow] using h2⟩
    | vstr s =>
      obtain ⟨st2, h1, h2⟩ := set_ok_get A st k (.vstr s) (.cText s) rfl
      exact ⟨st2, h1, by simpa [cellRead, sqlNarrow] using h2⟩
    | vbytes b => simp [simpleScalar] at hs
    | vdate y m d => simp [simpleScalar] at hs
    | vdatetime y mo d hh mi s us => simp [simpleScalar] at hs
    | vlist xs => simp [simpleScalar] at hs
    | vdict kvs => simp [simpleScalar] at hs
    | vinst cl attrs => simp [simpleScalar] at hs
  · cases v with
    | vdict kvs =>
      rw [adapterRT] at hrt
      cases hfd : A.from_dict (.vdict kvs) with
      | error e => rw [hfd] at hrt; exact absurd hrt (by simp)
      | ok b =>
        rw [hfd] at hrt
        obtain ⟨st2, h1, h2⟩ := set_ok_get A st k (.vdict kvs) (.cBlob b)
          (by simp [toCell, hfd])
        refine ⟨st2, h1, ?_⟩
        rw [h2]
        simpa [cellRead, sqlNarrow] using hrt
    | vnone => simp [isDictVal] at hd
    | vbool b => simp [isDictVal] at hd
    | vint n => simp [isDictVal] at hd
    | vstr s => simp [isDictVal] at hd
    | vbytes b => simp [isDictVal] at hd
    | vdate y m d => simp [isDictVal] at hd
    | vdatetime y mo d hh mi s us => simp [isDictVal] at hd
    | vlist xs => simp [isDictVal] at hd
    | vinst cl attrs => simp [isDictVal] at hd

/-- C1 witness: a mapping stored and read back under the json format. -/
theorem claim1_witness :
    ∃ st2, Collection.set jsonAdapter ⟨[], [], false⟩ "x"
        (.vdict (.cons "a" (.vint 1) .nil)) = .ok st2 ∧
      Collection.get jsonAdapter st2 "x" =
        .ok (sqlNarrow (.vdict (.cons "a" (.vint 1) .nil))) :=
  claim1_set_get jsonAdapter ⟨[], [], false⟩ "x" _ (Or.inr ⟨rfl, rfl⟩)

/-- C1 counterexample: the raw byte string holding the JSON text 5 is
stored un-encoded, but get decodes any byte content through the codec, so
it comes back as the integer 5, which Python does not report equal to the
byte string. -/
theorem claim1_counterexample :
    Collection.set jsonAdapter ⟨[], [], false⟩ "k" (.vbytes (.jsonText (.jInt 5))) =
      .ok ⟨[("k", .cBlob (.jsonText (.jInt 5)))], [("k", .cBlob (.jsonText (.jInt 5)))], false⟩ ∧
    Collection.get jsonAdapter
        ⟨[("k", .cBlob (.jsonText (.jInt 5)))], [("k", .cBlob (.jsonText (.jInt 5)))], false⟩ "k" =
      .ok (.vint 5) ∧
    PyVal.vint 5 ≠ .vbytes (.jsonText (.jInt 5)) :=
  ⟨rfl, rfl, fun hEq => PyVal.noConfusion hEq⟩

/-- C7 (amended): two sequential set calls with the same key land on one
row: the second call leaves exactly the state a single set of the second
value would produce, the key appears once, and get returns the read-back
of the second stored cell (equal to the second value whenever
set-then-get returns it, as for the int scalars of the spec scenario; not
for byte strings, see the counterexample). -/
theorem claim7_upsert (A : AdapterModel) (st : ConnState) (k : String) (v1 v2 : PyVal)
    (c1 c2 : SqlCell) (h1 : toCell A v1 = .ok c1) (h2 : toCell A v2 = .ok c2)
    (hnp : tableNodup st.pending = true) (hnc : tableNodup st.committed = true) :
    ∃ st1 st2, Collection.set A st k v1 = .ok st1 ∧
      Collection.set A st1 k v2 = .ok st2 ∧
      Collection.set A st k v2 = .ok st2 ∧
      keyCount st2.pending k = 1 ∧
      Collection.get A st2 k = cellRead A c2 := by
  by_cases htx : st.in_transaction = true
  · refine ⟨⟨st.committed, tableUpsert st.pending k c1, st.in_transaction⟩,
      ⟨st.committed, tableUpsert st.pending k c2, st.in_transaction⟩, ?_, ?_, ?_, ?_, ?_⟩
    · simp [Collection.set, h1, htx]
    · simp [Collection.set, h2, htx, tableUpsert_collapse]
    · simp [Collection.set, h2, htx]
    · simpa using keyCount_tableUpsert st.pending k c2 hnp
    · simp [Collection.get, lookup_tableUpsert]
  · simp only [Bool.not_eq_true] at htx
    refine ⟨⟨tableUpsert st.committed k c1, tableUpsert st.committed k c1, false⟩,
      ⟨tableUpsert st.committed k c2, tableUpsert st.committed k c2, false⟩, ?_, ?_, ?_, ?_, ?_⟩
    · simp [Collection.set, h1, htx]
    · simp [Collection.set, h2, tableUpsert_collapse]
    · simp [Collection.set, h2, htx]
    · simpa using keyCount_tableUpsert st.committed k c2 hnc
    · simp [Collection.get, lookup_tableUpsert]

/-- C7 witness: the spec scenario set x 1 then set x 2 under the json
format, ending with one row whose read-back is 2. -/
theorem claim7_witness :
    ∃ st1 st2, Collection.set jsonAdapter ⟨[], [], false⟩ "x" (.vint 1) = .ok st1 ∧
      Collection.set jsonAdapter st1 "x" (.vint 2) = .ok st2 ∧
      Collection.set jsonAdapter ⟨[], [], false⟩ "x" (.vint 2) = .ok st2 ∧
      keyCount st2.pending "x" = 1 ∧
      Collection.get jsonAdapter st2 "x" = cellRead jsonAdapter (.cInt 2) :=
  claim7_upsert jsonAdapter ⟨[], [], false⟩ "x" (.vint 1) (.vint 2)
    (.cInt 1) (.cInt 2) rfl rfl rfl rfl

/-- C7 counterexample: replacing the value under a key with a raw byte
string leaves one row, but get returns the codec decode of the bytes (the
integer 5), not the byte string that was set. -/
theorem claim7_counterexample :
    Collection.set jsonAdapter ⟨[], [], false⟩ "x" (.vint 1) =
      .ok ⟨[("x", .cInt 1)], [("x", .cInt 1)], false⟩ ∧
    Collection.set jsonAdapter ⟨[("x", .cInt 1)], [("x", .cInt 1)], false⟩ "x"
        (.vbytes (.jsonText (.jInt 5))) =
      .ok ⟨[("x", .cBlob (.jsonText (.jInt 5)))], [("x", .cBlob (.jsonText (.jInt 5)))], false⟩ ∧
    Collection.get jsonAdapter
        ⟨[("x", .cBlob (.jsonText (.jInt 5)))], [("x", .cBlob (.jsonText (.jInt 5)))], false⟩ "x" =
      .ok (.vint 5) ∧
    PyVal.vint 5 ≠ .vbytes (.jsonText (.jInt 5)) :=
  ⟨rfl, rfl, rfl, fun hEq => PyVal.noConfusion hEq⟩
